import Mathlib

/-!
Shallow embedding of `tally_points_by_shape.py`.

Coordinates are modelled as rationals (the script's floats carry exact
decimal values in every behaviour the spec pins down).  Python dicts with
string keys are modelled as association lists in insertion order, which is
the iteration order of a Python dict.  The containment test the script
delegates to shapely (`pt.within(poly)`) is modelled by its documented
semantics: `a.within(b)` holds iff `a`'s boundary and interior intersect
only the interior of `b`, so for a point against a simple polygon it holds
iff the point lies in the open interior — points on the polygon's boundary
(on an edge or at a vertex) are not `within`.
-/

namespace TallyShapes

/-- A planar point with exact coordinates, modelling shapely's `Point(x, y)`
(in this program: (longitude, latitude)). -/
structure Point where
  x : ℚ
  y : ℚ
deriving DecidableEq

/-- Edges of the closed vertex ring: consecutive vertex pairs, wrapping the
last vertex back to the first, as shapely's `Polygon` closes its ring. -/
def polyEdges : List Point → List (Point × Point)
  | [] => []
  | v :: vs => (v :: vs).zip (vs ++ [v])

/-- Cross product of (b - a) with (q - a); zero iff a, b, q are collinear. -/
def cross (a b q : Point) : ℚ :=
  (b.x - a.x) * (q.y - a.y) - (b.y - a.y) * (q.x - a.x)

/-- The point q lies on the closed segment from a to b: collinear with the
endpoints and inside the segment's bounding box. -/
def onSegment (q a b : Point) : Bool :=
  decide (cross a b q = 0) &&
  decide (min a.x b.x ≤ q.x) && decide (q.x ≤ max a.x b.x) &&
  decide (min a.y b.y ≤ q.y) && decide (q.y ≤ max a.y b.y)

/-- The point q lies on the boundary of the polygon with vertex ring vs. -/
def onBoundary (q : Point) (vs : List Point) : Bool :=
  (polyEdges vs).any fun e => onSegment q e.1 e.2

/-- One step of the ray cast: the edge e crosses the horizontal ray from q
towards +x (half-open rule on the y-span, strict comparison on the crossing
abscissa). -/
def edgeCrosses (q : Point) (e : Point × Point) : Bool :=
  (decide (e.1.y ≤ q.y) != decide (e.2.y ≤ q.y)) &&
  decide (q.x < e.1.x + (e.2.x - e.1.x) * (q.y - e.1.y) / (e.2.y - e.1.y))

/-- Model of shapely's `pt.within(poly)` for a point against a simple
polygon: true iff the point lies in the open interior.  Shapely's `within`
requires the point to meet only the interior of the polygon, so boundary
points (on an edge or at a vertex) yield `false`; interior membership is
the standard odd-crossings ray-casting parity. -/
def within (q : Point) (vs : List Point) : Bool :=
  if onBoundary q vs then false
  else (polyEdges vs).foldl (fun b e => if edgeCrosses q e then !b else b) false

/-- `tally_points` from the source: for each named polygon, in the Shape
Set's iteration order, count the points `pt` with `pt.within(poly)` and
record `name : count`.  The dict being built by successive
`d.update(\x7bname: count\x7d)` calls on distinct keys is the in-order
association list. -/
def tally_points (polygons : List (String × List Point)) (points : List Point) :
    List (String × Nat) :=
  polygons.map fun np => (np.1, (points.filter fun pt => within pt np.2).length)

/-- A Python value that `get_points` can return in its first component:
either the integer sentinel `-1` or a list of points. -/
inductive PyVal where
  | int : Int → PyVal
  | points : List Point → PyVal
deriving DecidableEq

/-- `get_points` from the source.  `isatty` models `os.isatty(0)` (no input
stream attached); `input` models the stdin rows parsed by `pd.read_csv` as
(lat, lon) pairs, `none` when reading or parsing raises.  The initial
`points = -1` binding survives every failure path; on success each
(lat, lon) row is swapped into `Point(lon, lat)`. -/
def get_points (isatty : Bool) (input : Option (List (ℚ × ℚ))) : PyVal × Int :=
  if isatty then (PyVal.int (-1), -1)
  else
    match input with
    | none => (PyVal.int (-1), -1)
    | some rows => (PyVal.points (rows.map fun r => Point.mk r.2 r.1), 1)

/-- Observable outcome of one run of `main`: the (name, count) rows written
to stdout, whether the `Aborting.` diagnostic was printed, and whether
`tally_points` was invoked. -/
structure RunResult where
  output : List (String × Nat)
  aborted : Bool
  engineInvoked : Bool
deriving DecidableEq

/-- `main` from the source, parameterised by the result of `get_shapes`
(`polys`, `polys_flag`) and by the environment `get_points` reads.  The
tally runs only when both flags equal 1; `get_points` returns flag 1 only
together with a `PyVal.points` value, so the success branch matches on
exactly that shape, and every other outcome prints `Aborting.`. -/
def mainRun (polys : List (String × List Point)) (polys_flag : Int)
    (isatty : Bool) (input : Option (List (ℚ × ℚ))) : RunResult :=
  match get_points isatty input with
  | (PyVal.points pts, 1) =>
    if polys_flag = 1 then
      { output := tally_points polys pts, aborted := false, engineInvoked := true }
    else
      { output := [], aborted := true, engineInvoked := false }
  | _ => { output := [], aborted := true, engineInvoked := false }

/-- One `tsv_writer.writerow((key, tally[key]))` call with `delimiter`
tab and `lineterminator` tab: the two fields joined by a tab and
terminated by a tab. -/
def csvRow (row : String × Nat) : String :=
  row.1 ++ "\t" ++ toString row.2 ++ "\t"

/-- The output loop of `main`: the rows are appended to stdout one after
the other in the tally's iteration order. -/
def writeTally (tally : List (String × Nat)) : String :=
  tally.foldl (fun out row => out ++ csvRow row) ""

/-- The square of the spec's concrete scenario. -/
def squareShape : List Point := [⟨0, 0⟩, ⟨0, 2⟩, ⟨2, 2⟩, ⟨2, 0⟩]

/-- Unit square with its right edge on the line x = 1. -/
def leftSquare : List Point := [⟨0, 0⟩, ⟨1, 0⟩, ⟨1, 1⟩, ⟨0, 1⟩]

/-- Unit square with its left edge on the line x = 1; it shares that edge
with `leftSquare`. -/
def rightSquare : List Point := [⟨1, 0⟩, ⟨2, 0⟩, ⟨2, 1⟩, ⟨1, 1⟩]

/-- C1: the claim says the engine's containment predicate accepts points
exactly on the boundary and that tallying increments the count for such a
point.  The code delegates to shapely's boundary-excluding `within`: the
point (0, 1) lies exactly on the square's edge from (0, 0) to (0, 2), yet
`within` rejects it and tallying the square over the one-point set
[(0, 1)] yields count 0, not 1. -/
theorem c1_on_edge_point_not_counted :
    onSegment ⟨0, 1⟩ ⟨0, 0⟩ ⟨0, 2⟩ = true ∧
    within ⟨0, 1⟩ squareShape = false ∧
    tally_points [("square", squareShape)] [⟨0, 1⟩] = [("square", 0)] := by
  refine ⟨by norm_num [onSegment, cross], ?_, ?_⟩ <;>
    norm_num [tally_points, within, onBoundary, polyEdges, onSegment, cross,
      edgeCrosses, squareShape, List.filter]

/-- C2: the spec's concrete scenario expects tally 3 for the square over
[(1,1), (3,3), (0,1), (0,0)] (interior, on-edge and on-vertex points all
counting).  The code counts only the interior point (1,1): shapely's
`within` is false for the on-edge point (0,1) and the vertex (0,0), so the
engine returns 1, not 3. -/
theorem c2_concrete_square_scenario :
    tally_points [("square", squareShape)] [⟨1, 1⟩, ⟨3, 3⟩, ⟨0, 1⟩, ⟨0, 0⟩]
      = [("square", 1)] ∧
    tally_points [("square", squareShape)] [⟨1, 1⟩, ⟨3, 3⟩, ⟨0, 1⟩, ⟨0, 0⟩]
      ≠ [("square", 3)] := by
  have h : tally_points [("square", squareShape)] [⟨1, 1⟩, ⟨3, 3⟩, ⟨0, 1⟩, ⟨0, 0⟩]
      = [("square", 1)] := by
    norm_num [tally_points, within, onBoundary, polyEdges, onSegment, cross,
      edgeCrosses, squareShape, List.filter]
  exact ⟨h, by rw [h]; simp⟩

/-- C3: the claim says a point exactly on the edge shared by two adjacent
polygons is counted in both tallies.  The code counts it in neither: the
point (1, 1/2) lies on the edge x = 1 shared by `leftSquare` and
`rightSquare`, and the engine returns count 0 for both squares. -/
theorem c3_shared_edge_point_counted_nowhere :
    onSegment ⟨1, 1/2⟩ ⟨1, 0⟩ ⟨1, 1⟩ = true ∧
    tally_points [("A", leftSquare), ("B", rightSquare)] [⟨1, 1/2⟩]
      = [("A", 0), ("B", 0)] := by
  refine ⟨by norm_num [onSegment, cross], ?_⟩
  norm_num [tally_points, within, onBoundary, polyEdges, onSegment, cross,
    edgeCrosses, leftSquare, rightSquare, List.filter]

/-- C4: for a Shape Set with distinct names (a Python dict key set), the
Tally Result has exactly one entry per Shape Set entry, zero counts
included, its names are those of the Shape Set in the Shape Set's key
order, and they stay distinct. -/
theorem c4_one_entry_per_shape (ps : List (String × List Point))
    (pts : List Point) (h : (ps.map Prod.fst).Nodup) :
    (tally_points ps pts).map Prod.fst = ps.map Prod.fst ∧
    (tally_points ps pts).length = ps.length ∧
    ((tally_points ps pts).map Prod.fst).Nodup := by
  have hkeys : (tally_points ps pts).map Prod.fst = ps.map Prod.fst := by
    simp [tally_points, List.map_map, Function.comp]
  exact ⟨hkeys, by simp [tally_points], hkeys ▸ h⟩

/-- Witness for C4 at a concrete two-shape Shape Set. -/
theorem c4_one_entry_per_shape_witness :
    (tally_points [("A", leftSquare), ("B", rightSquare)] []).map Prod.fst
      = [("A", leftSquare), ("B", rightSquare)].map Prod.fst ∧
    (tally_points [("A", leftSquare), ("B", rightSquare)] []).length
      = [("A", leftSquare), ("B", rightSquare)].length ∧
    ((tally_points [("A", leftSquare), ("B", rightSquare)] []).map Prod.fst).Nodup :=
  c4_one_entry_per_shape [("A", leftSquare), ("B", rightSquare)] [] (by simp)

/-- C5: every count the engine records is a natural number bounded by the
size of the Point Set: each polygon's count is the length of a filtered
copy of the point list. -/
theorem c5_count_bounds (ps : List (String × List Point)) (pts : List Point)
    (n : String) (c : Nat) (h : (n, c) ∈ tally_points ps pts) :
    0 ≤ c ∧ c ≤ pts.length := by
  refine ⟨Nat.zero_le c, ?_⟩
  simp only [tally_points, List.mem_map] at h
  obtain ⟨np, _, heq⟩ := h
  obtain ⟨-, rfl⟩ := Prod.mk.injEq .. ▸ heq
  exact List.length_filter_le _ _

/-- Witness for C5 at a concrete Shape Set and the empty Point Set. -/
theorem c5_count_bounds_witness :
    0 ≤ 0 ∧ 0 ≤ ([] : List Point).length :=
  c5_count_bounds [("square", squareShape)] [] "square" 0 (by simp [tally_points])

/-- C6: the engine is total, with no error cases: an empty Shape Set gives
the empty Tally Result whatever the Point Set, and the empty Point Set
gives a zero count for every Shape Set entry. -/
theorem c6_empty_inputs (ps : List (String × List Point)) (pts : List Point) :
    tally_points [] pts = [] ∧
    tally_points ps [] = ps.map fun np => (np.1, 0) := by
  exact ⟨rfl, by simp [tally_points]⟩

/-- C7: permuting the Point Set leaves every count unchanged (each count is
a `countP` over the point list), and permuting the Shape Set permutes the
(name, count) pairs without changing them as a multiset. -/
theorem c7_order_independence (ps ps' : List (String × List Point))
    (pts pts' : List Point) (hpts : pts.Perm pts') (hps : ps.Perm ps') :
    tally_points ps pts = tally_points ps pts' ∧
    (tally_points ps pts).Perm (tally_points ps' pts) := by
  constructor
  · have hfun :
        (fun np : String × List Point =>
          (np.1, (pts.filter fun pt => within pt np.2).length))
        = fun np : String × List Point =>
          (np.1, (pts'.filter fun pt => within pt np.2).length) := by
      funext np
      rw [← List.countP_eq_length_filter, ← List.countP_eq_length_filter,
        hpts.countP_eq]
    simp only [tally_points, hfun]
  · exact hps.map _

/-- Witness for C7: swapping the two points and the two shapes of concrete
two-element inputs. -/
theorem c7_order_independence_witness :
    tally_points [("A", leftSquare), ("B", rightSquare)] [⟨1, 1⟩, ⟨3, 3⟩]
      = tally_points [("A", leftSquare), ("B", rightSquare)] [⟨3, 3⟩, ⟨1, 1⟩] ∧
    (tally_points [("A", leftSquare), ("B", rightSquare)] [⟨1, 1⟩, ⟨3, 3⟩]).Perm
      (tally_points [("B", rightSquare), ("A", leftSquare)] [⟨1, 1⟩, ⟨3, 3⟩]) :=
  c7_order_independence [("A", leftSquare), ("B", rightSquare)]
    [("B", rightSquare), ("A", leftSquare)] [⟨1, 1⟩, ⟨3, 3⟩] [⟨3, 3⟩, ⟨1, 1⟩]
    (List.Perm.swap _ _ _) (List.Perm.swap _ _ _)

/-- C8: if either acquisition flag is not 1, `main` prints the diagnostic,
never invokes the tally engine, and writes no count rows at all. -/
theorem c8_abort_without_engine (polys : List (String × List Point))
    (polys_flag : Int) (isatty : Bool) (input : Option (List (ℚ × ℚ)))
    (h : polys_flag ≠ 1 ∨ (get_points isatty input).2 ≠ 1) :
    mainRun polys polys_flag isatty input
      = { output := [], aborted := true, engineInvoked := false } := by
  unfold mainRun
  split
  next pts heq =>
    have hflag : (get_points isatty input).2 = 1 := by rw [heq]
    have hpolys : polys_flag ≠ 1 := by
      rcases h with h | h
      · exact h
      · exact absurd hflag h
    rw [if_neg hpolys]
  next => rfl

/-- Witness for C8: shape-source failure (flag -1) with no input stream. -/
theorem c8_abort_without_engine_witness :
    mainRun [("square", squareShape)] (-1) true none
      = { output := [], aborted := true, engineInvoked := false } :=
  c8_abort_without_engine [("square", squareShape)] (-1) true none
    (Or.inl (by decide))

/-- C9: the output step writes, in order, one tab-separated row per Tally
Result entry: the stream built by the sequential `writerow` calls is the
in-order concatenation of the per-entry rows, and there are as many rows
as Shape Set entries. -/
theorem c9_rows_serialization (ps : List (String × List Point))
    (pts : List Point) :
    writeTally (tally_points ps pts)
      = String.join ((tally_points ps pts).map csvRow) ∧
    ((tally_points ps pts).map csvRow).length = ps.length := by
  constructor
  · simp only [writeTally, String.join]
    rw [List.foldl_map]
  · simp [tally_points]

/-- C10: every failure path of `get_points` (no attached input stream, or
a read/parse error) returns the integer sentinel -1 as first component
together with flag -1, and the first component is a point list exactly
when the flag is 1. -/
theorem c10_get_points_failure_sentinel (isatty : Bool)
    (input : Option (List (ℚ × ℚ))) :
    ((isatty = true ∨ input = none) →
      get_points isatty input = (PyVal.int (-1), -1)) ∧
    ((get_points isatty input).2 = 1 →
      ∃ l, (get_points isatty input).1 = PyVal.points l) := by
  constructor
  · rintro (rfl | rfl)
    · simp [get_points]
    · cases isatty <;> simp [get_points]
  · intro hflag
    cases isatty
    · cases input
      · simp [get_points] at hflag
      · exact ⟨_, rfl⟩
    · simp [get_points] at hflag

/-- Witness for C10: the no-input-stream failure and a one-row success. -/
theorem c10_get_points_failure_sentinel_witness :
    get_points true none = (PyVal.int (-1), -1) ∧
    ∃ l, (get_points false (some [(2, 1)])).1 = PyVal.points l :=
  ⟨(c10_get_points_failure_sentinel true none).1 (Or.inl rfl),
   (c10_get_points_failure_sentinel false (some [(2, 1)])).2 rfl⟩

end TallyShapes
